import Mathlib

/-!
Shallow embedding of the Yomu-Mango manga-index application
(`app/main.py`, `app/models.py`, `promote_admin.py`).

Rows of the relational store are structures; the store itself is a `DB`
holding one list per table plus the autoincrement counters for the
primary keys the handlers allocate.  Each FastAPI handler becomes a pure
function from the store (and the resolved identity, an `Option User`,
which `get_current_user` produces from the session) to a `Response`
paired with the successor store.  A raised `HTTPException` is the
`Response.httpError` constructor; `RedirectResponse` is
`Response.redirect`; a rendered template is `Response.template`, keeping
the template name and the `error` entry of the context (the rest of the
context is presentation data the spec puts out of scope).  Timestamp
columns (`created_at`, `updated_at`, `published_at`) are omitted: no
handler branches on them.  Password hashing is delegated to passlib in
the source, so the handlers that need it take the hash / verify
functions as parameters.
-/

namespace Yomu

/-- Row of table `manga` (`app/models.py`, class `Manga`). -/
structure Manga where
  id : Nat
  title : String
  alt_title : Option String
  description : Option String
  status : String
  content_rating : String
  type : String
  cover_image_url : Option String
deriving DecidableEq, Repr

/-- Row of table `chapter` (`app/models.py`, class `Chapter`).
`number` is a `Float` column in the source; no handler branches on it,
so it is carried exactly, as an `Int` scaled by 10, which admits the
fractional numbering (1, 1.5, ...) the schema comments on without
floating point. -/
structure Chapter where
  id : Nat
  manga_id : Nat
  number10 : Int
  title : Option String
  language : String
  volume : Option Nat
  external_url : String
  source_name : Option String
deriving DecidableEq, Repr

/-- Row of table `user` (`app/models.py`, class `User`). -/
structure User where
  id : Nat
  email : String
  username : String
  password_hash : String
  is_active : Bool
  role : String
deriving DecidableEq, Repr

/-- Row of table `custom_list` (`app/models.py`, class `CustomList`). -/
structure CustomList where
  id : Nat
  user_id : Nat
  name : String
  description : Option String
  is_public : Bool
deriving DecidableEq, Repr

/-- Row of table `custom_list_item` (`app/models.py`, class `CustomListItem`). -/
structure CustomListItem where
  id : Nat
  list_id : Nat
  manga_id : Nat
deriving DecidableEq, Repr

/-- The persistent store: one list per table (in insertion order, which is
how the ORM enumerates un-ordered queries) plus the next value of each
autoincrement primary key a handler allocates. -/
structure DB where
  users : List User
  mangas : List Manga
  chapters : List Chapter
  custom_lists : List CustomList
  custom_list_items : List CustomListItem
  next_user_id : Nat
  next_manga_id : Nat
  next_chapter_id : Nat
  next_item_id : Nat
deriving DecidableEq, Repr

/-- A handler outcome: a redirect (`RedirectResponse(url, status_code)`),
a rendered template (name plus the `error` context entry), or a raised
`HTTPException(status_code, detail)`. -/
inductive Response where
  | redirect (url : String) (status : Nat)
  | template (name : String) (error : Option String)
  | httpError (status : Nat) (detail : String)
deriving DecidableEq, Repr

/-- Embeds `require_admin` from `app/main.py`: `some` error when access must be
refused, `none` when the caller may proceed. -/
def require_admin (user : Option User) : Option Response :=
  match user with
  | none => some (Response.httpError 403 "Admin access required")
  | some u => if u.role != "admin" then some (Response.httpError 403 "Admin access required") else none

/-- Handler `POST /auth/register` (`register_submit`).  `get_password_hash` is
passlib, passed in as `hash_fn`.  Returns the response, the successor
store and the session assignment (`some uid` when the handler wrote
`request.session["user_id"] = uid`). -/
def register_submit (db : DB) (current_user : Option User) (hash_fn : String → String)
    (username email password : String) : Response × DB × Option Nat :=
  match current_user with
  | some _ => (Response.redirect "/" 303, db, none)
  | none =>
    match db.users.find? (fun u => u.username == username || u.email == email) with
    | some _ =>
      (Response.template "auth_register.html" (some "Username or email already in use."), db, none)
    | none =>
      let user : User :=
        { id := db.next_user_id, email := email, username := username,
          password_hash := hash_fn password, is_active := true, role := "user" }
      (Response.redirect "/" 303,
       { db with users := db.users ++ [user], next_user_id := db.next_user_id + 1 },
       some user.id)

/-- Handler `POST /auth/login` (`login_submit`).  `verify_password` is passlib,
passed in as `verify`. -/
def login_submit (db : DB) (current_user : Option User) (verify : String → String → Bool)
    (identifier password : String) : Response × DB × Option Nat :=
  match current_user with
  | some _ => (Response.redirect "/" 303, db, none)
  | none =>
    match db.users.find? (fun u => u.username == identifier || u.email == identifier) with
    | none =>
      (Response.template "auth_login.html" (some "Invalid username/email or password."), db, none)
    | some user =>
      if !(verify password user.password_hash) then
        (Response.template "auth_login.html" (some "Invalid username/email or password."), db, none)
      else
        (Response.redirect "/" 303, db, some user.id)

/-- Handler `GET /lists/:list_id` (`list_detail`): 404 when the list id is
unknown, 403 when the list is private and the caller is not its owner,
otherwise the rendered page. -/
def list_detail (db : DB) (current_user : Option User) (list_id : Nat) : Response :=
  match db.custom_lists.find? (fun l => l.id == list_id) with
  | none => Response.httpError 404 "List not found"
  | some custom_list =>
    if !custom_list.is_public then
      if (match current_user with
          | none => true
          | some u => custom_list.user_id != u.id) then
        Response.httpError 403 "Not allowed to view this list"
      else
        Response.template "list_detail.html" none
    else
      Response.template "list_detail.html" none

/-- Handler `POST /lists/add` (`add_to_list`). -/
def add_to_list (db : DB) (current_user : Option User) (manga_id list_id : Nat) :
    Response × DB :=
  match current_user with
  | none => (Response.redirect "/auth/login" 303, db)
  | some cu =>
    match db.custom_lists.find? (fun l => l.id == list_id && l.user_id == cu.id) with
    | none => (Response.httpError 404 "List not found", db)
    | some custom_list =>
      match db.mangas.find? (fun m => m.id == manga_id) with
      | none => (Response.httpError 404 "Manga not found", db)
      | some manga =>
        match db.custom_list_items.find?
            (fun it => it.list_id == custom_list.id && it.manga_id == manga.id) with
        | some _ => (Response.redirect ("/manga/" ++ toString manga_id) 303, db)
        | none =>
          let item : CustomListItem :=
            { id := db.next_item_id, list_id := custom_list.id, manga_id := manga.id }
          (Response.redirect ("/manga/" ++ toString manga_id) 303,
           { db with custom_list_items := db.custom_list_items ++ [item],
                     next_item_id := db.next_item_id + 1 })

/-- Handler `POST /lists/remove` (`remove_from_list`).  The source joins
`CustomListItem` with `CustomList` and filters on the item id and the
list owner; deleting the found item removes the row with that primary
key. -/
def remove_from_list (db : DB) (current_user : Option User) (item_id : Nat) :
    Response × DB :=
  match current_user with
  | none => (Response.redirect "/auth/login" 303, db)
  | some cu =>
    match db.custom_list_items.find?
        (fun it => it.id == item_id &&
          db.custom_lists.any (fun l => l.id == it.list_id && l.user_id == cu.id)) with
    | none => (Response.httpError 404 "Item not found or not yours", db)
    | some item =>
      (Response.redirect ("/lists/" ++ toString item.list_id) 303,
       { db with custom_list_items :=
           db.custom_list_items.eraseP (fun it => it.id == item.id) })

/-- Handler `POST /lists/:list_id/delete` (`delete_list`); the delete cascades
to the items of the list. -/
def delete_list (db : DB) (current_user : Option User) (list_id : Nat) :
    Response × DB :=
  match current_user with
  | none => (Response.redirect "/auth/login" 303, db)
  | some cu =>
    match db.custom_lists.find? (fun l => l.id == list_id && l.user_id == cu.id) with
    | none => (Response.httpError 404 "List not found or not yours", db)
    | some custom_list =>
      (Response.redirect "/my/lists" 303,
       { db with custom_lists := db.custom_lists.eraseP (fun l => l.id == custom_list.id),
                 custom_list_items :=
                   db.custom_list_items.filter (fun it => it.list_id != custom_list.id) })

/-- Handler `GET /admin/users` (`admin_users`): admin gate, then the user list
page (its context is presentation data; the store is read, not written). -/
def admin_users (db : DB) (current_user : Option User) : Response × DB :=
  match require_admin current_user with
  | some err => (err, db)
  | none => (Response.template "admin_users.html" none, db)

/-- Handler `POST /admin/users/:user_id/role` (`admin_update_user_role`):
admin gate, role-value validation, target lookup, self-demotion guard,
then the role write (updating the row with the target's primary key). -/
def admin_update_user_role (db : DB) (current_user : Option User)
    (user_id : Nat) (role : String) : Response × DB :=
  match current_user with
  | none => (Response.httpError 403 "Admin access required", db)
  | some cu =>
    if cu.role != "admin" then (Response.httpError 403 "Admin access required", db)
    else if !(role == "user" || role == "admin") then
      (Response.httpError 400 "Invalid role", db)
    else
      match db.users.find? (fun u => u.id == user_id) with
      | none => (Response.httpError 404 "User not found", db)
      | some target =>
        if target.id == cu.id && role != "admin" then
          (Response.httpError 400 "You cannot demote yourself", db)
        else
          (Response.redirect "/admin/users" 303,
           { db with users := (db.users.map
               (fun u => if u.id == target.id then { u with role := role } else u)) })

/-- Handler `POST /admin/manga/new` (`admin_create_manga`). -/
def admin_create_manga (db : DB) (current_user : Option User)
    (title : String) (alt_title description : Option String)
    (status content_rating ty : String) (cover_image_url : Option String) :
    Response × DB :=
  match require_admin current_user with
  | some err => (err, db)
  | none =>
    let manga : Manga :=
      { id := db.next_manga_id, title := title, alt_title := alt_title,
        description := description, status := status, content_rating := content_rating,
        type := ty, cover_image_url := cover_image_url }
    (Response.redirect ("/manga/" ++ toString manga.id) 303,
     { db with mangas := db.mangas ++ [manga], next_manga_id := db.next_manga_id + 1 })

/-- Handler `POST /admin/chapters/new` (`admin_create_chapter`). -/
def admin_create_chapter (db : DB) (current_user : Option User)
    (manga_id : Nat) (number10 : Int) (title : Option String) (language : String)
    (volume : Option Nat) (external_url : String) (source_name : Option String) :
    Response × DB :=
  match require_admin current_user with
  | some err => (err, db)
  | none =>
    match db.mangas.find? (fun m => m.id == manga_id) with
    | none => (Response.httpError 404 "Manga not found for chapter", db)
    | some _ =>
      let chapter : Chapter :=
        { id := db.next_chapter_id, manga_id := manga_id, number10 := number10,
          title := title, language := language, volume := volume,
          external_url := external_url, source_name := source_name }
      (Response.redirect ("/manga/" ++ toString manga_id) 303,
       { db with chapters := db.chapters ++ [chapter],
                 next_chapter_id := db.next_chapter_id + 1 })

/-- Embeds `make_admin` from `promote_admin.py`: the out-of-band promotion
script; a no-op when the username is unknown. -/
def make_admin (db : DB) (username : String) : DB :=
  match db.users.find? (fun u => u.username == username) with
  | none => db
  | some user =>
    { db with users := (db.users.map
        (fun u => if u.id == user.id then { u with role := "admin" } else u)) }

/-- Lower-cased character data of a string, the common coordinate system
of `ilike` (SQLite `LIKE` folds case for ASCII letters only, which is
exactly `Char.toLower` on each character). -/
def lowerChars (s : String) : List Char := s.data.map Char.toLower

/-- Tests whether `needle` occurs contiguously inside the second list:
the literal case-insensitive-substring reading of the spec's search
sentence.  (Spec-side notion; the source's filter is the LIKE matcher
below, and the two agree exactly when the query carries no LIKE
wildcard characters.) -/
def containsSub (needle : List Char) : List Char → Bool
  | [] => needle.isEmpty
  | c :: rest => needle.isPrefixOf (c :: rest) || containsSub needle rest

/-- SQL LIKE pattern matching on character data, the semantics the
ilike filter compiles to: a percent sign in the pattern matches any
sequence of characters (also the empty one), an underscore matches
exactly one character, and every other pattern character matches
itself.  The source builds its pattern with no ESCAPE clause, so
percent signs and underscores inside the query text act as wildcards. -/
def likeMatch : List Char → List Char → Bool
  | [], hay => hay.isEmpty
  | p :: ps, [] => p == '%' && likeMatch ps []
  | p :: ps, c :: t =>
    if p == '%' then likeMatch ps (c :: t) || likeMatch (p :: ps) t
    else (p == '_' || p == c) && likeMatch ps t

/-- The title filter of the search handlers: the source interpolates
the query unescaped between two percent signs and applies ilike, i.e.
LIKE on case-folded data. -/
def titleMatches (q : String) (m : Manga) : Bool :=
  likeMatch (lowerChars ("%" ++ q ++ "%")) (lowerChars m.title)

/-- The comparison the sort of `order_by(Manga.title)` uses. -/
def titleLe (a b : Manga) : Bool := decide (a.title ≤ b.title)

/-- Handler `GET /api/manga` (`api_list_manga`); the page handler `home` runs the
identical query pipeline (`if q: filter ilike`, `order_by(title)`,
`limit(100)`) before handing the rows to its template. -/
def api_list_manga (db : DB) (q : Option String) : List Manga :=
  let filtered :=
    match q with
    | some s => if s.isEmpty then db.mangas else db.mangas.filter (titleMatches s)
    | none => db.mangas
  (filtered.mergeSort titleLe).take 100

/-- The search as the amended claim words it: exactly the rows whose
title matches the LIKE pattern the handler builds, sorted by title
ascending, restricted to the 100 alphabetically-first such rows.
(Spec-side definition, compared with `api_list_manga` in the search
claim.) -/
def searchSpec (db : DB) (q : String) : List Manga :=
  ((db.mangas.filter (titleMatches q)).mergeSort titleLe).take 100

/-- A manga row whose title has no underscore and no percent sign, for
exhibiting the wildcard behaviour of the search. -/
def mAB : Manga :=
  { id := 1, title := "AB", alt_title := none, description := none,
    status := "ongoing", content_rating := "safe", type := "manga",
    cover_image_url := none }

/-- A store holding only `mAB`. -/
def dbWild : DB :=
  { users := [], mangas := [mAB], chapters := [], custom_lists := [],
    custom_list_items := [], next_user_id := 1, next_manga_id := 2,
    next_chapter_id := 1, next_item_id := 1 }

/-- Number of `custom_list_item` rows carrying a given
(`list_id`, `manga_id`) pair. -/
def countPair (db : DB) (lid mid : Nat) : Nat :=
  (db.custom_list_items.filter (fun it => it.list_id == lid && it.manga_id == mid)).length

/-! ### Concrete fixture rows used by the witness instantiations -/

/-- A stored administrator. -/
def alice : User :=
  { id := 1, email := "alice@example.com", username := "alice",
    password_hash := "hash-a", is_active := true, role := "admin" }

/-- A stored ordinary user. -/
def bob : User :=
  { id := 2, email := "bob@example.com", username := "bob",
    password_hash := "hash-b", is_active := true, role := "user" }

/-- A stored manga row. -/
def demoManga : Manga :=
  { id := 1, title := "Example Manga", alt_title := none, description := none,
    status := "ongoing", content_rating := "safe", type := "manga",
    cover_image_url := none }

/-- A private list owned by `bob`. -/
def bobList : CustomList :=
  { id := 1, user_id := 2, name := "faves", description := none, is_public := false }

/-- A small concrete store. -/
def demoDB : DB :=
  { users := [alice, bob], mangas := [demoManga], chapters := [],
    custom_lists := [bobList], custom_list_items := [],
    next_user_id := 3, next_manga_id := 2, next_chapter_id := 1, next_item_id := 2 }

/-! ### Helper lemmas -/

/-- Lemma: `require_admin` refuses every identity that is anonymous or whose
role is not `"admin"`. -/
theorem require_admin_blocks (I : Option User)
    (hI : ∀ u, I = some u → u.role ≠ "admin") :
    require_admin I = some (Response.httpError 403 "Admin access required") := by
  cases I with
  | none => rfl
  | some u =>
    have hb : (u.role != "admin") = true := bne_iff_ne.mpr (hI u rfl)
    simp [require_admin, hb]

/-- C1: when an admin `A` submits a role change whose target user id is
`A`'s own id and whose requested role is not `"admin"`, the handler
rejects the request with a 400 validation failure and the store — hence
`A`'s stored role — is unchanged. -/
theorem admin_self_demotion_rejected (db : DB) (A : User) (role : String)
    (hA : A.role = "admin") (hmem : A ∈ db.users) (hrole : role ≠ "admin") :
    ∃ detail, admin_update_user_role db (some A) A.id role
      = (Response.httpError 400 detail, db) := by
  have hsome : (db.users.find? (fun u => u.id == A.id)).isSome :=
    List.find?_isSome.mpr ⟨A, hmem, by simp⟩
  obtain ⟨target, htarget⟩ := Option.isSome_iff_exists.mp hsome
  have hid : target.id = A.id := by simpa using List.find?_some htarget
  have hbne : (role != "admin") = true := bne_iff_ne.mpr hrole
  by_cases hu : role = "user"
  · refine ⟨"You cannot demote yourself", ?_⟩
    subst hu
    simp [admin_update_user_role, hA, htarget, hid]
  · refine ⟨"Invalid role", ?_⟩
    have h1 : (role == "user") = false := beq_eq_false_iff_ne.mpr hu
    have h2 : (role == "admin") = false := beq_eq_false_iff_ne.mpr hrole
    simp [admin_update_user_role, hA, h1, h2]

/-- Witness for C1: the stored admin `alice` asking to set her own role
to `"user"` is rejected with a 400 and the store is unchanged. -/
theorem admin_self_demotion_rejected_witness :
    ∃ detail, admin_update_user_role demoDB (some alice) alice.id "user"
      = (Response.httpError 400 detail, demoDB) :=
  admin_self_demotion_rejected demoDB alice "user" rfl (by decide) (by decide)

/-- C9: an admin submitting any role value other than the exact strings
`"user"` and `"admin"` gets a 400 validation failure and the store is
unchanged (nothing is coerced). -/
theorem role_value_validation (db : DB) (A : User) (uid : Nat) (role : String)
    (hA : A.role = "admin") (hu : role ≠ "user") (hr : role ≠ "admin") :
    admin_update_user_role db (some A) uid role
      = (Response.httpError 400 "Invalid role", db) := by
  have h1 : (role == "user") = false := beq_eq_false_iff_ne.mpr hu
  have h2 : (role == "admin") = false := beq_eq_false_iff_ne.mpr hr
  simp [admin_update_user_role, hA, h1, h2]

/-- Witness for C9: the role value `"moderator"` is rejected. -/
theorem role_value_validation_witness :
    admin_update_user_role demoDB (some alice) 2 "moderator"
      = (Response.httpError 400 "Invalid role", demoDB) :=
  role_value_validation demoDB alice 2 "moderator" rfl (by decide) (by decide)

/-- C4: every admin-only handler (manga creation, chapter creation, role
change, user listing), invoked by an identity that is anonymous or whose
role is not `"admin"`, answers 403 forbidden and leaves the store
unchanged — in particular no `Manga` row is created by a non-admin POST
to `/admin/manga/new`. -/
theorem admin_actions_forbidden (db : DB) (I : Option User)
    (hI : ∀ u, I = some u → u.role ≠ "admin")
    (title : String) (alt_title descr : Option String)
    (status content_rating ty : String) (cover : Option String)
    (uid : Nat) (role : String) (manga_id : Nat) (number10 : Int)
    (ctitle : Option String) (language : String) (volume : Option Nat)
    (external_url : String) (source_name : Option String) :
    admin_create_manga db I title alt_title descr status content_rating ty cover
        = (Response.httpError 403 "Admin access required", db)
  ∧ admin_create_chapter db I manga_id number10 ctitle language volume external_url source_name
        = (Response.httpError 403 "Admin access required", db)
  ∧ admin_update_user_role db I uid role
        = (Response.httpError 403 "Admin access required", db)
  ∧ admin_users db I = (Response.httpError 403 "Admin access required", db) := by
  have hra := require_admin_blocks I hI
  refine ⟨?_, ?_, ?_, ?_⟩
  · simp [admin_create_manga, hra]
  · simp [admin_create_chapter, hra]
  · cases I with
    | none => rfl
    | some u =>
      have hb : (u.role != "admin") = true := bne_iff_ne.mpr (hI u rfl)
      simp [admin_update_user_role, hb]
  · simp [admin_users, hra]

/-- Witness for C4: the stored non-admin `bob` posting to
`/admin/manga/new` gets 403 and the store — so the `Manga` table — is
unchanged. -/
theorem admin_actions_forbidden_witness :
    admin_create_manga demoDB (some bob) "Sneaky" none none "ongoing" "safe" "manga" none
      = (Response.httpError 403 "Admin access required", demoDB) :=
  (admin_actions_forbidden demoDB (some bob)
    (fun u h => by cases h; decide)
    "Sneaky" none none "ongoing" "safe" "manga" none
    1 "admin" 1 10 none "en" none "https://example.com/c1" none).1

/-- C2: for an existing list (the row the id lookup resolves to), viewing
succeeds exactly when the list is public or the caller is its
authenticated owner, and in every other case the handler answers 403
forbidden. -/
theorem list_view_access (db : DB) (I : Option User) (list_id : Nat) (L : CustomList)
    (hfind : db.custom_lists.find? (fun l => l.id == list_id) = some L) :
    (list_detail db I list_id = Response.template "list_detail.html" none ↔
      (L.is_public = true ∨ ∃ u, I = some u ∧ u.id = L.user_id))
    ∧ ((¬ (L.is_public = true ∨ ∃ u, I = some u ∧ u.id = L.user_id)) →
        list_detail db I list_id = Response.httpError 403 "Not allowed to view this list") := by
  cases hp : L.is_public with
  | true =>
    constructor
    · simp [list_detail, hfind, hp]
    · intro hno
      exact absurd (Or.inl rfl) hno
  | false =>
    cases I with
    | none =>
      constructor
      · simp [list_detail, hfind, hp]
      · intro _
        simp [list_detail, hfind, hp]
    | some u =>
      by_cases hid : u.id = L.user_id
      · have hb : (L.user_id != u.id) = false := by
          simp [bne, hid]
        constructor
        · simp only [list_detail, hfind, hp, hb]
          simp [hid]
        · intro hno
          exact absurd (Or.inr ⟨u, rfl, hid⟩) hno
      · have hb : (L.user_id != u.id) = true := bne_iff_ne.mpr (fun h => hid h.symm)
        constructor
        · simp only [list_detail, hfind, hp, hb]
          constructor
          · intro h
            exact absurd h (by simp)
          · rintro (h | ⟨v, hv, hvid⟩)
            · exact absurd h (by simp [hp])
            · cases hv
              exact absurd hvid hid
        · intro _
          simp [list_detail, hfind, hp, hb]

/-- Witness for C2: `alice` (not the owner) viewing `bob`'s private list
is answered 403 forbidden. -/
theorem list_view_access_witness :
    list_detail demoDB (some alice) 1 = Response.httpError 403 "Not allowed to view this list" :=
  (list_view_access demoDB (some alice) 1 bobList (by decide)).2
    (by
      rintro (h | ⟨u, hu, hid⟩)
      · exact absurd h (by decide)
      · cases hu
        exact absurd hid (by decide))

/-- C3: for an authenticated caller, each list-mutating handler succeeds
(redirects) only when the targeted list — for item removal, the item's
owning list — exists and is owned by the caller; and whenever that
condition fails, whether because the row does not exist or because it is
owned by someone else, the handler answers with one and the same 404
"not found" response for that handler and leaves the store unchanged, so
the caller cannot tell an unowned row from a missing one. -/
theorem list_mutation_ownership (db : DB) (cu : User) (manga_id list_id item_id : Nat) :
    ((∃ url s, (add_to_list db (some cu) manga_id list_id).1 = Response.redirect url s) →
        ∃ l ∈ db.custom_lists, l.id = list_id ∧ l.user_id = cu.id)
  ∧ ((¬ ∃ l ∈ db.custom_lists, l.id = list_id ∧ l.user_id = cu.id) →
        add_to_list db (some cu) manga_id list_id
          = (Response.httpError 404 "List not found", db))
  ∧ ((∃ url s, (delete_list db (some cu) list_id).1 = Response.redirect url s) →
        ∃ l ∈ db.custom_lists, l.id = list_id ∧ l.user_id = cu.id)
  ∧ ((¬ ∃ l ∈ db.custom_lists, l.id = list_id ∧ l.user_id = cu.id) →
        delete_list db (some cu) list_id
          = (Response.httpError 404 "List not found or not yours", db))
  ∧ ((∃ url s, (remove_from_list db (some cu) item_id).1 = Response.redirect url s) →
        ∃ it ∈ db.custom_list_items, it.id = item_id ∧
          ∃ l ∈ db.custom_lists, l.id = it.list_id ∧ l.user_id = cu.id)
  ∧ ((¬ ∃ it ∈ db.custom_list_items, it.id = item_id ∧
          ∃ l ∈ db.custom_lists, l.id = it.list_id ∧ l.user_id = cu.id) →
        remove_from_list db (some cu) item_id
          = (Response.httpError 404 "Item not found or not yours", db)) := by
  refine ⟨?_, ?_, ?_, ?_, ?_, ?_⟩
  · intro hex
    cases hfl : db.custom_lists.find? (fun l => l.id == list_id && l.user_id == cu.id) with
    | none =>
      obtain ⟨url, s, hu⟩ := hex
      rw [add_to_list] at hu
      simp [hfl] at hu
    | some cl =>
      have hmem := List.mem_of_find?_eq_some hfl
      have hp := List.find?_some hfl
      simp only [Bool.and_eq_true, beq_iff_eq] at hp
      exact ⟨cl, hmem, hp.1, hp.2⟩
  · intro hno
    have hfl : db.custom_lists.find? (fun l => l.id == list_id && l.user_id == cu.id) = none := by
      rw [List.find?_eq_none]
      intro l hl hp
      simp only [Bool.and_eq_true, beq_iff_eq] at hp
      exact hno ⟨l, hl, hp.1, hp.2⟩
    simp [add_to_list, hfl]
  · intro hex
    cases hfl : db.custom_lists.find? (fun l => l.id == list_id && l.user_id == cu.id) with
    | none =>
      obtain ⟨url, s, hu⟩ := hex
      rw [delete_list] at hu
      simp [hfl] at hu
    | some cl =>
      have hmem := List.mem_of_find?_eq_some hfl
      have hp := List.find?_some hfl
      simp only [Bool.and_eq_true, beq_iff_eq] at hp
      exact ⟨cl, hmem, hp.1, hp.2⟩
  · intro hno
    have hfl : db.custom_lists.find? (fun l => l.id == list_id && l.user_id == cu.id) = none := by
      rw [List.find?_eq_none]
      intro l hl hp
      simp only [Bool.and_eq_true, beq_iff_eq] at hp
      exact hno ⟨l, hl, hp.1, hp.2⟩
    simp [delete_list, hfl]
  · intro hex
    cases hfi : db.custom_list_items.find?
        (fun it => it.id == item_id &&
          db.custom_lists.any (fun l => l.id == it.list_id && l.user_id == cu.id)) with
    | none =>
      obtain ⟨url, s, hu⟩ := hex
      rw [remove_from_list] at hu
      simp [hfi] at hu
    | some item =>
      have hmem := List.mem_of_find?_eq_some hfi
      have hp := List.find?_some hfi
      simp only [Bool.and_eq_true, beq_iff_eq, List.any_eq_true] at hp
      obtain ⟨hid, l, hl, hl1, hl2⟩ := hp
      exact ⟨item, hmem, hid, l, hl, hl1, hl2⟩
  · intro hno
    have hfi : db.custom_list_items.find?
        (fun it => it.id == item_id &&
          db.custom_lists.any (fun l => l.id == it.list_id && l.user_id == cu.id)) = none := by
      rw [List.find?_eq_none]
      intro it hit hp
      simp only [Bool.and_eq_true, beq_iff_eq, List.any_eq_true] at hp
      obtain ⟨hid, l, hl, hl1, hl2⟩ := hp
      exact hno ⟨it, hit, hid, l, hl, hl1, hl2⟩
    simp [remove_from_list, hfi]

/-- Witness for C3: `alice` adding to `bob`'s list (which exists but is
not hers) gets the same 404 "List not found" a nonexistent list id
yields, and the store is unchanged. -/
theorem list_mutation_ownership_witness :
    add_to_list demoDB (some alice) 1 1 = (Response.httpError 404 "List not found", demoDB) :=
  (list_mutation_ownership demoDB alice 1 1 1).2.1
    (by
      rintro ⟨l, hl, h1, h2⟩
      have : l = bobList := by
        simpa [demoDB] using hl
      subst this
      exact absurd (h2.symm.trans rfl) (by decide))

/-- C5: adding a manga to an owned list is idempotent.  When a
`custom_list_item` row for the (list, manga) pair already exists the add
is a silent no-op — it redirects like a successful add and leaves the
store unchanged — and starting from a store without the pair, performing
the same add twice leaves exactly one row for the pair. -/
theorem add_to_list_idempotent (db : DB) (cu : User) (manga_id list_id : Nat)
    (cl : CustomList) (m : Manga)
    (hcl : db.custom_lists.find? (fun l => l.id == list_id && l.user_id == cu.id) = some cl)
    (hm : db.mangas.find? (fun mm => mm.id == manga_id) = some m) :
    ((∃ it ∈ db.custom_list_items, it.list_id = cl.id ∧ it.manga_id = m.id) →
        add_to_list db (some cu) manga_id list_id
          = (Response.redirect ("/manga/" ++ toString manga_id) 303, db))
    ∧ (countPair db cl.id m.id = 0 →
        countPair (add_to_list (add_to_list db (some cu) manga_id list_id).2
            (some cu) manga_id list_id).2 cl.id m.id = 1) := by
  constructor
  · rintro ⟨it, hit, h1, h2⟩
    have hsome : (db.custom_list_items.find?
        (fun x => x.list_id == cl.id && x.manga_id == m.id)).isSome :=
      List.find?_isSome.mpr ⟨it, hit, by simp [h1, h2]⟩
    obtain ⟨it0, hit0⟩ := Option.isSome_iff_exists.mp hsome
    simp [add_to_list, hcl, hm, hit0]
  · intro hcount
    have hfilter : db.custom_list_items.filter
        (fun it => it.list_id == cl.id && it.manga_id == m.id) = [] :=
      List.length_eq_zero.mp hcount
    have hnone : db.custom_list_items.find?
        (fun x => x.list_id == cl.id && x.manga_id == m.id) = none := by
      rw [List.find?_eq_none]
      intro x hx hp
      have hx2 : x ∈ (db.custom_list_items.filter
          (fun it => it.list_id == cl.id && it.manga_id == m.id)) :=
        List.mem_filter.mpr ⟨hx, hp⟩
      rw [hfilter] at hx2
      simp at hx2
    simp [add_to_list, hcl, hm, hnone, countPair, List.filter_append, hfilter]

/-- Witness for C5: `bob` adding `demoManga` to his own list twice,
starting from a store with no item rows, ends with exactly one row for
the pair. -/
theorem add_to_list_idempotent_witness :
    countPair (add_to_list (add_to_list demoDB (some bob) 1 1).2
        (some bob) 1 1).2 bobList.id demoManga.id = 1 :=
  (add_to_list_idempotent demoDB bob 1 1 bobList demoManga (by decide) (by decide)).2
    (by decide)

/-- C6: a registration attempt (by an anonymous visitor, the only case
the form accepts) whose requested username or email equals a stored
user's username or email — one OR condition across both fields — is
answered inline on the registration template with an error, not with a
redirect, and the store (hence the number of `User` rows) is unchanged
and no session is established. -/
theorem register_duplicate_rejected (db : DB) (hash_fn : String → String)
    (username email password : String)
    (hdup : ∃ u ∈ db.users, u.username = username ∨ u.email = email) :
    register_submit db none hash_fn username email password
      = (Response.template "auth_register.html"
          (some "Username or email already in use."), db, none) := by
  obtain ⟨u, hu, hcase⟩ := hdup
  have hsome : (db.users.find?
      (fun v => v.username == username || v.email == email)).isSome := by
    refine List.find?_isSome.mpr ⟨u, hu, ?_⟩
    rcases hcase with h | h <;> simp [h]
  obtain ⟨v, hv⟩ := Option.isSome_iff_exists.mp hsome
  simp [register_submit, hv]

/-- Witness for C6: registering with the already-taken username
`"alice"` fails inline and leaves the store unchanged. -/
theorem register_duplicate_rejected_witness :
    register_submit demoDB none (fun p => p) "alice" "fresh@example.com" "pw"
      = (Response.template "auth_register.html"
          (some "Username or email already in use."), demoDB, none) :=
  register_duplicate_rejected demoDB (fun p => p) "alice" "fresh@example.com" "pw"
    ⟨alice, by decide, Or.inl rfl⟩

/-- C8: a login whose identifier matches no stored user's username or
email and a login whose identifier resolves to a stored user but whose
password fails verification produce one and the same response: the
generic inline "Invalid username/email or password." template, with the
store unchanged and no session established — nothing distinguishes the
two failures. -/
theorem login_failure_indistinguishable (db : DB) (verify : String → String → Bool)
    (id1 pw1 id2 pw2 : String) (u : User)
    (h1 : ∀ v ∈ db.users, v.username ≠ id1 ∧ v.email ≠ id1)
    (h2 : db.users.find? (fun v => v.username == id2 || v.email == id2) = some u)
    (hpw : verify pw2 u.password_hash = false) :
    login_submit db none verify id1 pw1 = login_submit db none verify id2 pw2
    ∧ login_submit db none verify id1 pw1
        = (Response.template "auth_login.html"
            (some "Invalid username/email or password."), db, none) := by
  have hnone : db.users.find? (fun v => v.username == id1 || v.email == id1) = none := by
    rw [List.find?_eq_none]
    intro v hv
    have := h1 v hv
    simp [this.1, this.2]
  have e1 : login_submit db none verify id1 pw1
      = (Response.template "auth_login.html"
          (some "Invalid username/email or password."), db, none) := by
    simp [login_submit, hnone]
  have e2 : login_submit db none verify id2 pw2
      = (Response.template "auth_login.html"
          (some "Invalid username/email or password."), db, none) := by
    simp [login_submit, h2, hpw]
  exact ⟨e1.trans e2.symm, e1⟩

/-- Witness for C8: with a verifier that rejects everything, logging in
as the unknown `"nobody"` and as the stored `"alice"` with a wrong
password yield identical responses. -/
theorem login_failure_indistinguishable_witness :
    login_submit demoDB none (fun _ _ => false) "nobody" "pw1"
      = login_submit demoDB none (fun _ _ => false) "alice" "pw2" :=
  (login_failure_indistinguishable demoDB (fun _ _ => false) "nobody" "pw1" "alice" "pw2"
    alice (by decide) (by decide) rfl).1

/-- C10: every `User` row present after a registration request, whatever
the submitted form fields, either was already stored or carries role
`"user"`: registration can never create an admin row (promotion happens
only through the role-change handler or the out-of-band `make_admin`
script, both embedded above). -/
theorem register_role_always_user (db : DB) (cu : Option User)
    (hash_fn : String → String) (username email password : String) :
    ∀ u ∈ (register_submit db cu hash_fn username email password).2.1.users,
      u ∈ db.users ∨ u.role = "user" := by
  intro u hu
  cases cu with
  | some c =>
    simp only [register_submit] at hu
    exact Or.inl hu
  | none =>
    cases hfind : db.users.find?
        (fun v => v.username == username || v.email == email) with
    | some v =>
      simp only [register_submit, hfind] at hu
      exact Or.inl hu
    | none =>
      simp only [register_submit, hfind] at hu
      rw [List.mem_append] at hu
      rcases hu with hu | hu
      · exact Or.inl hu
      · right
        simp at hu
        rw [hu]

/-- Witness for C10: the row created by registering `"carol"` has role
`"user"`. -/
theorem register_role_always_user_witness :
    ({ id := 3, email := "carol@example.com", username := "carol",
       password_hash := "pw", is_active := true, role := "user" } : User) ∈ demoDB.users
    ∨ ({ id := 3, email := "carol@example.com", username := "carol",
         password_hash := "pw", is_active := true, role := "user" } : User).role = "user" :=
  register_role_always_user demoDB none (fun p => p) "carol" "carol@example.com" "pw"
    { id := 3, email := "carol@example.com", username := "carol",
      password_hash := "pw", is_active := true, role := "user" }
    (by decide)

/-- An empty pattern body occurs in every haystack, the way
`LIKE '%%'` matches every row. -/
theorem containsSub_nil (hay : List Char) : containsSub [] hay = true := by
  cases hay with
  | nil => rfl
  | cons c rest => simp [containsSub, List.isPrefixOf]

/-- A pattern consisting of a single percent sign matches every
haystack. -/
theorem likeMatch_percent_nil (hay : List Char) : likeMatch ['%'] hay = true := by
  induction hay with
  | nil => simp [likeMatch]
  | cons c t ih => simp [likeMatch, ih]

/-- On a wildcard-free literal, the pattern of the literal followed by
a trailing percent matches exactly the haystacks the literal is a
prefix of. -/
theorem likeMatch_append_percent :
    ∀ (n : List Char), (∀ c ∈ n, c ≠ '%' ∧ c ≠ '_') →
      ∀ hay, likeMatch (n ++ ['%']) hay = n.isPrefixOf hay := by
  intro n
  induction n with
  | nil =>
    intro hn hay
    simp [likeMatch_percent_nil, List.isPrefixOf]
  | cons c n2 ih =>
    intro hn hay
    have hc := hn c (List.mem_cons_self c n2)
    have hcp : (c == '%') = false := beq_eq_false_iff_ne.mpr hc.1
    have hcu : (c == '_') = false := beq_eq_false_iff_ne.mpr hc.2
    have ih2 := ih (fun d hd => hn d (List.mem_cons_of_mem c hd))
    cases hay with
    | nil => simp [likeMatch, hcp, List.isPrefixOf]
    | cons d t => simp [likeMatch, hcp, hcu, ih2, List.isPrefixOf]

/-- Wrapping a wildcard-free literal in percent signs gives exactly the
substring test: the LIKE reading and the substring reading of the
search coincide on queries without LIKE metacharacters. -/
theorem likeMatch_wrap_eq_containsSub (n : List Char)
    (hn : ∀ c ∈ n, c ≠ '%' ∧ c ≠ '_') :
    ∀ hay, likeMatch ('%' :: (n ++ ['%'])) hay = containsSub n hay := by
  intro hay
  induction hay with
  | nil =>
    cases n with
    | nil => simp [likeMatch, containsSub]
    | cons c n2 =>
      have hcp : (c == '%') = false :=
        beq_eq_false_iff_ne.mpr (hn c (List.mem_cons_self c n2)).1
      simp [likeMatch, containsSub, hcp]
  | cons c t ih =>
    have hpre := likeMatch_append_percent n hn (c :: t)
    simp [likeMatch, containsSub, hpre, ih]

/-- Character data of the pattern the handler builds from the query. -/
theorem lowerChars_pattern (q : String) :
    lowerChars ("%" ++ q ++ "%") = '%' :: (lowerChars q ++ ['%']) := by
  have h1 : ("%" : String).data = ['%'] := rfl
  have h2 : Char.toLower '%' = '%' := by decide
  simp [lowerChars, String.data_append, h1, h2]

/-- On a query free of LIKE metacharacters the handler's filter is the
case-insensitive substring test of the original claim. -/
theorem titleMatches_wildcard_free (q : String)
    (hq : ∀ c ∈ lowerChars q, c ≠ '%' ∧ c ≠ '_') (m : Manga) :
    titleMatches q m = containsSub (lowerChars q) (lowerChars m.title) := by
  rw [titleMatches, lowerChars_pattern]
  exact likeMatch_wrap_eq_containsSub (lowerChars q) hq (lowerChars m.title)

/-- The empty search string matches every title. -/
theorem titleMatches_empty (m : Manga) : titleMatches "" m = true := by
  have h0 : lowerChars "" = ([] : List Char) := rfl
  have h := titleMatches_wildcard_free ""
    (by rw [h0]; intro c hc; exact absurd hc (List.not_mem_nil c)) m
  rw [h, h0]
  exact containsSub_nil _

/-- The pattern built from the single-underscore query matches exactly
the nonempty titles: the underscore is a LIKE wildcard for one
character, not a literal. -/
theorem likeMatch_underscore (hay : List Char) :
    likeMatch ['%', '_', '%'] hay = !hay.isEmpty := by
  have hud : (('_' : Char) == '%') = false := by decide
  induction hay with
  | nil => simp [likeMatch, hud]
  | cons c t _ih => simp [likeMatch, hud, likeMatch_percent_nil]

/-- Counterexample to C7 as stated: on the store holding the single
manga titled "AB" and the query consisting of one underscore, the
handler returns the row, although the title does not contain the query
as a case-insensitive substring — the claim's substring reading
predicts an empty result, so the claim is false at this input. -/
theorem title_search_claim_counterexample :
    api_list_manga dbWild (some "_") = [mAB]
    ∧ containsSub (lowerChars "_") (lowerChars mAB.title) = false := by
  constructor
  · have hm : titleMatches "_" mAB = true := by
      rw [titleMatches, lowerChars_pattern]
      have h1 : lowerChars "_" = ['_'] := rfl
      have h2 : lowerChars mAB.title = ['a', 'b'] := by decide
      rw [h1, h2]
      simp [likeMatch_underscore]
    have h3 : ("_" : String).isEmpty = false := by decide
    simp [api_list_manga, dbWild, h3, hm, List.mergeSort]
  · decide

/-- The title comparison is transitive. -/
theorem titleLe_trans : ∀ (a b c : Manga), titleLe a b → titleLe b c → titleLe a c := by
  intro a b c hab hbc
  simp only [titleLe, decide_eq_true_eq] at hab hbc ⊢
  exact le_trans hab hbc

/-- The title comparison is total. -/
theorem titleLe_total : ∀ (a b : Manga), titleLe a b || titleLe b a := by
  intro a b
  simp only [titleLe, Bool.or_eq_true, decide_eq_true_eq]
  exact le_total a.title b.title

/-- C7 (amended): the search handler returns exactly the rows whose
title matches the LIKE pattern built from the query — the query wrapped
in percent wildcards and matched case-insensitively, with percent signs
and underscores inside the query acting as LIKE wildcards — restricted
to the 100 alphabetically-first such rows in ascending title order; and
for a query containing no wildcard character this filter is exactly the
case-insensitive-substring reading of the original claim. -/
theorem title_search_like (db : DB) (q : String) :
    api_list_manga db (some q) = searchSpec db q
    ∧ List.Pairwise (fun a b => a.title ≤ b.title) (api_list_manga db (some q))
    ∧ (api_list_manga db (some q)).length ≤ 100
    ∧ (∀ m ∈ api_list_manga db (some q), titleMatches q m = true)
    ∧ ((∀ c ∈ lowerChars q, c ≠ '%' ∧ c ≠ '_') →
        ∀ m, titleMatches q m = containsSub (lowerChars q) (lowerChars m.title)) := by
  have heq : api_list_manga db (some q) = searchSpec db q := by
    by_cases hq : q.isEmpty
    · have hq0 : q = "" := (String.isEmpty_iff q).mp hq
      subst hq0
      have hall : db.mangas.filter (titleMatches "") = db.mangas :=
        List.filter_eq_self.mpr (fun m _ => titleMatches_empty m)
      simp [api_list_manga, searchSpec, hall]
    · simp [api_list_manga, searchSpec, hq]
  refine ⟨heq, ?_, ?_, ?_, ?_⟩
  · rw [heq]
    simp only [searchSpec]
    have hs := List.sorted_mergeSort titleLe_trans titleLe_total
        (db.mangas.filter (titleMatches q))
    have hsub : List.Sublist
        (((db.mangas.filter (titleMatches q)).mergeSort titleLe).take 100)
        ((db.mangas.filter (titleMatches q)).mergeSort titleLe) :=
      List.take_sublist _ _
    exact (hs.sublist hsub).imp (fun h => of_decide_eq_true h)
  · rw [heq]
    simp only [searchSpec]
    rw [List.length_take]
    exact Nat.min_le_left _ _
  · rw [heq]
    intro m hm
    simp only [searchSpec] at hm
    have h1 := List.mem_of_mem_take hm
    rw [List.mem_mergeSort] at h1
    exact (List.mem_filter.mp h1).2
  · exact fun hq m => titleMatches_wildcard_free q hq m

/-- Witness for C7 (amended): the handler applied to the concrete store
coincides with the spec-side search for the query `"example"`. -/
theorem title_search_like_witness :
    api_list_manga demoDB (some "example") = searchSpec demoDB "example" :=
  (title_search_like demoDB "example").1

end Yomu
